import Mathlib

/-!
Verification of the teleGRAMMO backend (telegram_scraper) against its
natural-language specification.

The Python source is shallowly embedded: each SQLAlchemy model becomes a Lean
structure holding the columns the verified operations read or write; the
relational store becomes a `Db` structure of row lists; the worker tasks and
services become pure Lean functions mirroring the Python control flow
statement by statement.  External effects (the telethon client, the arq
queue, wall-clock time) are passed in as explicit data: a channel's history
is a list of `TgMessage`, time is a `Nat`, and a download's outcome is a
`DownloadOutcome` value.
-/

namespace TelegramScraper

/-- `ScrapingJob` row (models/scraping_job.py).  `status` ranges over
"pending", "running", "completed", "failed", "cancelled";
`progress_percent` is a `Numeric(5,2)` column, embedded as `ℚ`.
Timestamp columns and `job_metadata`/`arq_job_id` are elided: no verified
claim reads them. -/
structure ScrapingJob where
  id : Nat
  user_id : Nat
  channel_id : Nat
  session_id : Option Nat
  job_type : String
  status : String
  progress_percent : ℚ
  messages_processed : Nat
  media_downloaded : Nat
  error_message : Option String
  deriving DecidableEq, Repr

/-- `Message` row (models/message.py), restricted to the columns the scrape
task's duplicate check, media tracking and cursor update depend on.  The
sender/reactions/views metadata columns are copied verbatim from the
telethon message and constrain nothing, so they are elided. -/
structure MessageRow where
  channel_id : Nat
  telegram_message_id : Nat
  message_text : Option String
  media_type : Option String
  deriving DecidableEq, Repr

/-- `Media` row (models/media.py).  `download_status` ranges over
"pending", "downloading", "completed", "failed". -/
structure MediaRow where
  channel_id : Nat
  telegram_message_id : Nat
  media_type : String
  download_status : String
  download_attempts : Nat
  error_message : Option String
  file_path : Option String
  deriving DecidableEq, Repr

/-- `UserChannel` row (models/user_channel.py): the per-user scrape cursor
and the schedule fields.  Times are `Nat` hours since an arbitrary epoch
(the scheduler arithmetic only adds whole hours: `timedelta(hours=n)`). -/
structure UserChannel where
  user_id : Nat
  channel_id : Nat
  last_scraped_message_id : Nat
  scrape_media : Bool
  is_active : Bool
  schedule_enabled : Bool
  schedule_interval_hours : Option Nat
  last_scheduled_at : Option Nat
  next_scheduled_at : Option Nat
  deriving DecidableEq, Repr

/-- An encrypted Fernet token as stored in `TelegramSession.session_string`.
Modelled from the spec: Fernet (from the external `cryptography` library,
not part of this repository) is an authenticated symmetric scheme; a token
is opaque, bound to the key that produced it, and decryption recovers the
plaintext exactly under that key and is rejected under any other. -/
structure FernetToken where
  key : List Nat
  payload : List Nat
  deriving DecidableEq, Repr

/-- `TelegramSession` row (models/telegram_session.py), restricted to the
columns the verified operations touch. -/
structure TelegramSessionRow where
  id : Nat
  user_id : Nat
  api_id : Nat
  session_string : Option FernetToken
  is_authenticated : Bool
  deriving DecidableEq, Repr

/-- `KeywordAlert` row (models/keyword_alert.py). -/
structure KeywordAlert where
  id : Nat
  user_id : Nat
  channel_id : Option Nat
  keyword : String
  is_regex : Bool
  is_case_sensitive : Bool
  is_active : Bool
  match_count : Nat
  last_match_at : Option Nat
  deriving DecidableEq, Repr

/-- `KeywordMatch` row (models/keyword_alert.py). -/
structure KeywordMatch where
  id : Nat
  keyword_alert_id : Nat
  message_id : Nat
  channel_id : Nat
  matched_text : Option String
  is_read : Bool
  deriving DecidableEq, Repr

/-- The relational store: one list of rows per table touched by the claims. -/
structure Db where
  scraping_jobs : List ScrapingJob
  messages : List MessageRow
  media : List MediaRow
  user_channels : List UserChannel
  telegram_sessions : List TelegramSessionRow
  keyword_alerts : List KeywordAlert
  keyword_matches : List KeywordMatch
  deriving DecidableEq, Repr

/-! ## The telethon side (external input to the scrape task) -/

/-- The `message.media` field of a telethon message, as far as
`get_media_type` inspects it.  `document none` is a `MessageMediaDocument`
whose `.document` is `None`; `document (some mime)` carries the document's
`mime_type or ""` source expression input, i.e. `some m` is a document with
`mime_type = m` and `none` a document with a null mime type. -/
inductive TgMedia where
  | photo : TgMedia
  | document : Option (Option String) → TgMedia
  | webpage : TgMedia
  | other : TgMedia
  deriving DecidableEq, Repr

/-- A telethon message as consumed by the scrape loop: its Telegram id, its
text (`message.text or message.message`, collapsed to one field) and its
media. -/
structure TgMessage where
  id : Nat
  text : Option String
  media : Option TgMedia
  deriving DecidableEq, Repr

/-- workers/tasks/scrape_channel.py, `get_media_type` (lines 58-80).
Note the fall-through: a `MessageMediaDocument` whose `.document` is `None`
reaches the final `return "other"`. -/
def get_media_type (message : TgMessage) : Option String :=
  match message.media with
  | none => none
  | some TgMedia.photo => some "photo"
  | some (TgMedia.document d) =>
    match d with
    | some mimeOpt =>
      let mime := mimeOpt.getD ""
      if mime.startsWith "video" then some "video"
      else if mime.startsWith "audio" then some "audio"
      else if mime.startsWith "image" then some "photo"
      else some "document"
    | none => some "other"
  | some TgMedia.webpage => some "webpage"
  | some TgMedia.other => some "other"

/-- Modelled from the spec: telethon's `client.iter_messages(entity,
min_id=n, reverse=True)` (external library) yields exactly the channel's
messages with id strictly greater than `n`, oldest first.  `history` is the
channel's full message list, oldest first. -/
def iter_messages (history : List TgMessage) (min_id : Nat) : List TgMessage :=
  history.filter fun m => min_id < m.id

/-! ## The scrape task (workers/tasks/scrape_channel.py) -/

/-- The duplicate check of lines 185-193: does a `Message` row already exist
for this `(channel_id, telegram_message_id)` pair? -/
def message_exists (db : Db) (ch mid : Nat) : Bool :=
  db.messages.any fun m => m.channel_id == ch && m.telegram_message_id == mid

/-- The `Media` record created at lines 242-248: `download_status` starts as
"pending", `download_attempts` at its column default 0. -/
def new_media_row (ch mid : Nat) (t : String) : MediaRow :=
  { channel_id := ch, telegram_message_id := mid, media_type := t,
    download_status := "pending", download_attempts := 0,
    error_message := none, file_path := none }

/-- The `Message` record built at lines 222-237 for a fetched message. -/
def new_message_row (ch : Nat) (m : TgMessage) : MessageRow :=
  { channel_id := ch, telegram_message_id := m.id, message_text := m.text,
    media_type := get_media_type m }

/-- One iteration of the message loop (lines 185-251), acting on
`(db, messages_processed, media_found)`.  An existing message is skipped
outright; a new one is inserted, and a pending `Media` row is added exactly
under the source condition
`if media_type and scrape_media and media_type not in ["webpage"]`.
Batching (`db.add_all` every `batch_size`) only groups commits and does not
change the final table contents, so rows are appended directly. -/
def scrape_step (ch : Nat) (scrape_media : Bool) (st : Db × Nat × Nat)
    (m : TgMessage) : Db × Nat × Nat :=
  let (db, processed, found) := st
  if message_exists db ch m.id then st
  else
    let mt := get_media_type m
    let db1 := { db with messages := db.messages ++ [new_message_row ch m] }
    match mt with
    | some t =>
      if scrape_media && !(t == "webpage") then
        ({ db1 with media := db1.media ++ [new_media_row ch m.id t] },
          processed + 1, found + 1)
      else (db1, processed + 1, found)
    | none => (db1, processed + 1, found)

/-- Lines 290-296: `SELECT telegram_message_id ... ORDER BY ... DESC LIMIT 1`
for the channel, i.e. the maximum id, with 0 when the channel has no
messages (SQL `NULL` and 0 are both falsy at the `if max_msg_id:` guard, so
collapsing them to 0 is behaviour-preserving). -/
def max_channel_message_id (db : Db) (ch : Nat) : Nat :=
  ((db.messages.filter fun m => m.channel_id == ch).map
    (fun m => m.telegram_message_id)).foldl max 0

/-- Lines 280-299: after the loop, when the `UserChannel` row exists and at
least one message was processed, set its cursor to the channel's maximum
stored message id (skipped when that maximum is falsy). -/
def update_user_channel_cursor (db : Db) (user ch processed : Nat) : Db :=
  if (db.user_channels.any fun uc =>
        uc.user_id == user && uc.channel_id == ch) && 0 < processed then
    let mx := max_channel_message_id db ch
    if 0 < mx then
      { db with user_channels := db.user_channels.map fun uc =>
          if uc.user_id == user && uc.channel_id == ch then
            { uc with last_scraped_message_id := mx }
          else uc }
    else db
  else db

/-- Lines 116-119: the worker sets the job to "running" with no guard on the
current status. -/
def workerStart (j : ScrapingJob) : ScrapingJob :=
  { j with status := "running" }

/-- The progress update of lines 259-271: counters are written, and when the
estimate is positive the progress becomes
`min(95, (messages_processed / total) * 100)`. -/
def workerLoopUpdate (j : ScrapingJob) (processed found total : Nat) :
    ScrapingJob :=
  let j1 := { j with messages_processed := processed,
                     media_downloaded := found }
  let prog : ℚ := min 95 ((processed : ℚ) / (total : ℚ) * 100)
  if 0 < total then { j1 with progress_percent := prog }
  else j1

/-- Lines 301-312: the completion update runs only when the status is not
"cancelled"; it sets "completed", progress 100 and the final counters. -/
def workerComplete (j : ScrapingJob) (processed found : Nat) : ScrapingJob :=
  if j.status == "cancelled" then j
  else
    { j with status := "completed", progress_percent := 100,
             messages_processed := processed, media_downloaded := found }

/-- Lines 328-339: the exception handler sets "failed" with no guard on the
current status (in particular it does not re-check for "cancelled"). -/
def workerFail (j : ScrapingJob) (err : String) (processed : Nat) :
    ScrapingJob :=
  { j with status := "failed", error_message := some err,
           messages_processed := processed }

/-- Apply a per-row update to the job with the given id. -/
def update_job (db : Db) (jobId : Nat) (f : ScrapingJob → ScrapingJob) : Db :=
  { db with scraping_jobs := db.scraping_jobs.map fun j =>
      if j.id == jobId then f j else j }

/-- The result of a whole scrape run. -/
structure ScrapeResult where
  db : Db
  messages_processed : Nat
  media_found : Nat
  deriving DecidableEq, Repr

/-- `scrape_channel` (lines 83-323) as one straight-line successful run: set
the job running, fold the message loop over the fetched history, update the
cursor, and mark the job completed.  The in-loop cancellation poll, the
in-loop progress commits (which touch only the job row) and the exception
path are modelled separately by the job-lifecycle transition system below,
which also covers their interleavings with `cancel_job`. -/
def scrape_channel_run (jobId user ch from_message_id : Nat)
    (scrape_media : Bool) (history : List TgMessage) (db : Db) :
    ScrapeResult :=
  let db0 := update_job db jobId workerStart
  let fetched := iter_messages history from_message_id
  let st := fetched.foldl (scrape_step ch scrape_media) (db0, 0, 0)
  let db1 := update_user_channel_cursor st.1 user ch st.2.1
  let db2 := update_job db1 jobId (fun j => workerComplete j st.2.1 st.2.2)
  ⟨db2, st.2.1, st.2.2⟩

/-! ## Job service (services/job_service.py) -/

/-- The fresh job row both creation sites build (`JobService.create_job`
and the scheduler task): status "pending", progress 0, zero counters, the
other columns at their declared defaults. -/
def fresh_job (id user ch : Nat) (sess : Option Nat) (jt : String) :
    ScrapingJob :=
  { id := id, user_id := user, channel_id := ch, session_id := sess,
    job_type := jt, status := "pending", progress_percent := 0,
    messages_processed := 0, media_downloaded := 0, error_message := none }

/-- `JobService.create_job` lines 27-37: the user has an active
`UserChannel` row for the channel. -/
def user_tracks_active (db : Db) (user ch : Nat) : Bool :=
  db.user_channels.any fun uc =>
    uc.channel_id == ch && uc.user_id == user && uc.is_active

/-- `JobService.create_job` lines 39-49: a "pending" or "running" job
already exists for this user and channel. -/
def has_user_channel_job (db : Db) (user ch : Nat) : Bool :=
  db.scraping_jobs.any fun j =>
    j.channel_id == ch && j.user_id == user &&
      (j.status == "pending" || j.status == "running")

/-- `JobService.create_job` (lines 17-64).  The inaccessible-channel check
runs before the active-job check; on success one job row is appended.
An error leaves the store untouched, which the `Except` result makes
explicit: the error branch carries no new store. -/
def create_job (db : Db) (user ch newId : Nat) (job_type : String) :
    Except String (Db × ScrapingJob) :=
  if !(user_tracks_active db user ch) then
    Except.error "Channel not found or not accessible"
  else if has_user_channel_job db user ch then
    Except.error "A job is already running for this channel"
  else
    let job := fresh_job newId user ch none job_type
    Except.ok ({ db with scraping_jobs := db.scraping_jobs ++ [job] }, job)

/-- `JobService.cancel_job` (lines 147-166), acting on a single job row:
only a "pending" or "running" job may be cancelled (otherwise the service
raises), and cancellation sets the status to "cancelled". -/
def cancel_job_row (j : ScrapingJob) : Option ScrapingJob :=
  if j.status == "pending" || j.status == "running" then
    some { j with status := "cancelled" }
  else none

/-- api/v1/jobs.py `create_scrape_job` (lines 80-91): the `from_message_id`
an incremental job is enqueued with — the user's cursor for the channel,
0 when the `UserChannel` row is absent (`or 0` is the identity here since
the column is a non-null `Nat`). -/
def incremental_from_message_id (db : Db) (user ch : Nat) : Nat :=
  match db.user_channels.find? fun uc =>
      uc.user_id == user && uc.channel_id == ch with
  | some uc => uc.last_scraped_message_id
  | none => 0

/-! ## Job lifecycle as a transition system (claims C1, C10)

One worker owns a job; `cancel_job` may interleave with it at any point.
`Phase.notStarted` is before the worker's initial "running" update,
`Phase.started` is inside the try block, `Phase.done` is after the
completion update or the exception handler (after which the worker performs
no further write to the job row). -/

inductive Phase where
  | notStarted : Phase
  | started : Phase
  | done : Phase
  deriving DecidableEq, Repr

structure JobSys where
  job : ScrapingJob
  phase : Phase

/-- Reachable states of one job row: created pending, then any interleaving
of the worker's writes (`workerStart`, the loop's progress commits,
the completion update, the exception handler) with successful calls of
`JobService.cancel_job`. -/
inductive JobReachable : JobSys → Prop where
  | init (id user ch : Nat) (sess : Option Nat) (jt : String) :
      JobReachable ⟨fresh_job id user ch sess jt, Phase.notStarted⟩
  | start {j : ScrapingJob} :
      JobReachable ⟨j, Phase.notStarted⟩ →
      JobReachable ⟨workerStart j, Phase.started⟩
  | loopUpdate {j : ScrapingJob} (processed found total : Nat) :
      JobReachable ⟨j, Phase.started⟩ →
      JobReachable ⟨workerLoopUpdate j processed found total, Phase.started⟩
  | complete {j : ScrapingJob} (processed found : Nat) :
      JobReachable ⟨j, Phase.started⟩ →
      JobReachable ⟨workerComplete j processed found, Phase.done⟩
  | fail {j : ScrapingJob} {ph : Phase} (err : String) (processed : Nat) :
      JobReachable ⟨j, ph⟩ → ph ≠ Phase.done →
      JobReachable ⟨workerFail j err processed, Phase.done⟩
  | cancel {j j2 : ScrapingJob} {ph : Phase} :
      JobReachable ⟨j, ph⟩ → cancel_job_row j = some j2 →
      JobReachable ⟨j2, ph⟩

/-! ## Scheduler (services/scheduler_service.py, workers/tasks/scheduler.py) -/

/-- `get_due_schedules` (scheduler_service.py lines 18-33): the rows with
`schedule_enabled`, `is_active` and `next_scheduled_at <= now` (a SQL
comparison, so a `NULL` `next_scheduled_at` never qualifies). -/
def get_due_schedules (db : Db) (now : Nat) : List UserChannel :=
  db.user_channels.filter fun uc =>
    uc.schedule_enabled && uc.is_active &&
      (match uc.next_scheduled_at with
       | some t => decide (t ≤ now)
       | none => false)

/-- SQLAlchemy's `Result.scalar_one_or_none()` on the rows a query matched:
`none` when no row matches, the row when exactly one does, and a
`MultipleResultsFound` error (an exception in the source) for more. -/
def scalar_one_or_none {α : Type} : List α → Except String (Option α)
  | [] => Except.ok none
  | [x] => Except.ok (some x)
  | _ => Except.error "MultipleResultsFound"

/-- `get_user_session` (lines 36-46): `scalar_one_or_none` over the user's
authenticated sessions — an error when the user holds more than one. -/
def get_user_session (db : Db) (user : Nat) :
    Except String (Option TelegramSessionRow) :=
  scalar_one_or_none (db.telegram_sessions.filter fun s =>
    s.user_id == user && s.is_authenticated)

/-- `has_active_job` (lines 49-59): `scalar_one_or_none is not None` over
the channel's "pending"/"running" jobs (any user) — an error when the
channel carries more than one such job. -/
def has_active_job (db : Db) (ch : Nat) : Except String Bool :=
  match scalar_one_or_none (db.scraping_jobs.filter fun j =>
      j.channel_id == ch &&
        (j.status == "pending" || j.status == "running")) with
  | Except.error e => Except.error e
  | Except.ok r => Except.ok r.isSome

/-- `calculate_next_run` (lines 83-86): `now + timedelta(hours=interval)`
with `interval = schedule_interval_hours or 24` — Python's `or` maps both
`None` and 0 to 24. -/
def calculate_next_run (uc : UserChannel) (now : Nat) : Nat :=
  now + (match uc.schedule_interval_hours with
         | none => 24
         | some n => if n = 0 then 24 else n)

/-- `mark_scheduled_run` (lines 89-93). -/
def mark_scheduled_run (uc : UserChannel) (now : Nat) : UserChannel :=
  { uc with last_scheduled_at := some now,
            next_scheduled_at := some (calculate_next_run uc now) }

/-- Write back an updated `UserChannel` row (the ORM mutates the row in
place; here the row with the same `(user_id, channel_id)` key is replaced). -/
def put_user_channel (db : Db) (uc2 : UserChannel) : Db :=
  { db with user_channels := db.user_channels.map fun uc =>
      if uc.user_id == uc2.user_id && uc.channel_id == uc2.channel_id then uc2
      else uc }

/-- A `scrape_channel_task` enqueued on the arq queue
(workers/tasks/scheduler.py lines 72-79). -/
structure QueuedScrape where
  job_id : Nat
  user_id : Nat
  channel_id : Nat
  session_id : Nat
  from_message_id : Nat
  deriving DecidableEq, Repr

/-- The body of `check_scheduled_jobs` for one due row (scheduler.py lines
44-94): skip but reschedule when the channel already has exactly one active
job; skip entirely when the user has no authenticated session; a
`MultipleResultsFound` raise from either lookup is caught by the per-row
exception handler (lines 90-94), which skips the row untouched — no job,
no reschedule; otherwise create a "pending" job, enqueue a scrape task from
the row's cursor (`last_scraped_message_id or 0`, the identity on a
non-null `Nat` column), and reschedule.  The state threads
`(db, queued tasks, next fresh job id)`. -/
def process_schedule (now : Nat) (st : Db × List QueuedScrape × Nat)
    (uc : UserChannel) : Db × List QueuedScrape × Nat :=
  let (db, queued, nextId) := st
  match has_active_job db uc.channel_id with
  | Except.error _ => st
  | Except.ok true =>
    (put_user_channel db (mark_scheduled_run uc now), queued, nextId)
  | Except.ok false =>
    match get_user_session db uc.user_id with
    | Except.error _ => st
    | Except.ok none => st
    | Except.ok (some s) =>
      let job := fresh_job nextId uc.user_id uc.channel_id (some s.id)
        "scheduled"
      let db1 := { db with scraping_jobs := db.scraping_jobs ++ [job] }
      let task : QueuedScrape :=
        { job_id := nextId, user_id := uc.user_id,
          channel_id := uc.channel_id, session_id := s.id,
          from_message_id := uc.last_scraped_message_id }
      (put_user_channel db1 (mark_scheduled_run uc now),
        queued ++ [task], nextId + 1)

/-- `check_scheduled_jobs` (scheduler.py lines 28-103): process every due
row in order. -/
def check_scheduled_jobs (db : Db) (now firstId : Nat) :
    Db × List QueuedScrape × Nat :=
  (get_due_schedules db now).foldl (process_schedule now) (db, [], firstId)

/-! ## Media download (workers/tasks/download_media.py, api/v1/media.py) -/

/-- What the external download attempt did (telethon `get_messages` +
`download_media`): the message and its media were found and the file saved,
or the message/media was gone, or an exception was raised. -/
inductive DownloadOutcome where
  | success : String → DownloadOutcome
  | notFound : DownloadOutcome
  | failure : String → DownloadOutcome
  deriving DecidableEq, Repr

/-- The first commit of `download_single_media` (lines 75-78) and of each
batch iteration (lines 253-255): the row is set to "downloading" and the
attempt counter bumped, with no guard on the current status. -/
def download_start (m : MediaRow) : MediaRow :=
  { m with download_status := "downloading",
           download_attempts := m.download_attempts + 1 }

/-- `download_single_media` (lines 45-175) on one row, after the row was
found: set "downloading", then "completed" with the file path on success or
"failed" with an error message otherwise. -/
def download_single_media (m : MediaRow) (outcome : DownloadOutcome) :
    MediaRow :=
  let m1 := download_start m
  match outcome with
  | DownloadOutcome.success p =>
    { m1 with download_status := "completed", file_path := some p }
  | DownloadOutcome.notFound =>
    { m1 with download_status := "failed",
              error_message := some "Message or media not found" }
  | DownloadOutcome.failure e =>
    { m1 with download_status := "failed", error_message := some e }

/-- api/v1/media.py `start_media_download` (lines 187-237) composed with the
worker's first commit: the endpoint refuses to enqueue for a row that is
already "completed" or "downloading" (returning the row unchanged), and
otherwise the enqueued worker moves the row to "downloading". -/
def start_media_download (m : MediaRow) : Option MediaRow :=
  if m.download_status == "completed" then none
  else if m.download_status == "downloading" then none
  else some (download_start m)

/-- `download_media_batch` (lines 204-214): the rows the batch task
operates on — only those with `download_status == "pending"`, up to
`limit`. -/
def batch_select (db : Db) (ch lim : Nat) : List MediaRow :=
  (db.media.filter fun m =>
    m.channel_id == ch && m.download_status == "pending").take lim

/-! ## Session-string encryption (services/telegram_service.py) -/

/-- Byte strings are lists of byte values. -/
abbrev Bytes := List Nat

/-- The base64url alphabet character for a 6-bit value (A-Z, a-z, 0-9,
then the url-safe pair). -/
def b64char (n : Nat) : Nat :=
  if n < 26 then 65 + n
  else if n < 52 then 97 + (n - 26)
  else if n < 62 then 48 + (n - 52)
  else if n = 62 then 45
  else 95

/-- `base64.urlsafe_b64encode`: standard base64 over the url-safe alphabet,
with terminal padding. -/
def b64urlEncode : Bytes → Bytes
  | [] => []
  | [a] => [b64char (a / 4), b64char (a % 4 * 16), 61, 61]
  | [a, b] => [b64char (a / 4), b64char (a % 4 * 16 + b / 16),
               b64char (b % 16 * 4), 61]
  | a :: b :: c :: rest =>
    [b64char (a / 4), b64char (a % 4 * 16 + b / 16),
     b64char (b % 16 * 4 + c / 64), b64char (c % 64)] ++ b64urlEncode rest

/-- `get_encryption_key` (telegram_service.py lines 22-27): the configured
key's bytes when exactly 32 of them, otherwise the bytes padded on the
right with spaces (0x20, `str.ljust`'s default fill) and truncated to 32;
in both cases base64url-encoded to form the Fernet key. -/
def get_encryption_key (cfg : Bytes) : Bytes :=
  if cfg.length = 32 then b64urlEncode cfg
  else b64urlEncode ((cfg ++ List.replicate (32 - cfg.length) 32).take 32)

/-- Modelled from the spec: `Fernet(key).encrypt` from the external
`cryptography` library (not part of this repository) produces a token bound
to the key. -/
def fernet_encrypt (key pt : Bytes) : FernetToken := ⟨key, pt⟩

/-- Modelled from the spec: `Fernet(key).decrypt` recovers the plaintext
exactly when given the token's own key, and rejects the token otherwise
(the library raises `InvalidToken`). -/
def fernet_decrypt (key : Bytes) (t : FernetToken) : Option Bytes :=
  if t.key = key then some t.payload else none

/-- `encrypt_session_string` (lines 30-33). -/
def encrypt_session_string (cfg : Bytes) (s : Bytes) : FernetToken :=
  fernet_encrypt (get_encryption_key cfg) s

/-- `decrypt_session_string` (lines 36-39). -/
def decrypt_session_string (cfg : Bytes) (t : FernetToken) : Option Bytes :=
  fernet_decrypt (get_encryption_key cfg) t

/-- The session update performed on successful sign-in by `verify_code`
(lines 208-223), and identically by `verify_2fa` and the QR-login path:
the login token written to `session_string` is always the output of
`encrypt_session_string`. -/
def verify_code_store (cfg : Bytes) (plain : Bytes)
    (s : TelegramSessionRow) : TelegramSessionRow :=
  { s with session_string := some (encrypt_session_string cfg plain),
           is_authenticated := true }

/-! ## Concrete rows and stores used by witnesses and counterexamples -/

/-- A store holding one scraped message, for exercising the idempotence
theorem on a concrete input. -/
def sample_db : Db :=
  { scraping_jobs := [], messages := [⟨1, 5, some "hi", none⟩], media := [],
    user_channels := [], telegram_sessions := [], keyword_alerts := [],
    keyword_matches := [] }

/-- A media row that previously failed to download. -/
def failed_media_row : MediaRow :=
  { channel_id := 1, telegram_message_id := 7, media_type := "photo",
    download_status := "failed", download_attempts := 1,
    error_message := some "timeout", file_path := none }

/-- A pending media row. -/
def pending_media_row : MediaRow :=
  { channel_id := 1, telegram_message_id := 8, media_type := "video",
    download_status := "pending", download_attempts := 0,
    error_message := none, file_path := none }

/-- A completed media row. -/
def completed_media_row : MediaRow :=
  { channel_id := 1, telegram_message_id := 9, media_type := "photo",
    download_status := "completed", download_attempts := 1,
    error_message := none, file_path := some "f.jpg" }

/-- A store holding one pending media row. -/
def media_db : Db :=
  { scraping_jobs := [], messages := [], media := [pending_media_row],
    user_channels := [], telegram_sessions := [], keyword_alerts := [],
    keyword_matches := [] }

/-- A tracking row the user has deactivated. -/
def inactive_user_channel : UserChannel :=
  { user_id := 1, channel_id := 2, last_scraped_message_id := 0,
    scrape_media := true, is_active := false, schedule_enabled := false,
    schedule_interval_hours := none, last_scheduled_at := none,
    next_scheduled_at := none }

/-- An active tracking row for the same pair. -/
def active_user_channel : UserChannel :=
  { user_id := 1, channel_id := 2, last_scraped_message_id := 0,
    scrape_media := true, is_active := true, schedule_enabled := false,
    schedule_interval_hours := none, last_scheduled_at := none,
    next_scheduled_at := none }

/-- A store where user 1 has a pending job for channel 2 but the tracking
row is inactive. -/
def inactive_db : Db :=
  { scraping_jobs := [fresh_job 9 1 2 none "incremental"], messages := [],
    media := [], user_channels := [inactive_user_channel],
    telegram_sessions := [], keyword_alerts := [], keyword_matches := [] }

/-- The same store with the tracking row active. -/
def active_db : Db :=
  { scraping_jobs := [fresh_job 9 1 2 none "incremental"], messages := [],
    media := [], user_channels := [active_user_channel],
    telegram_sessions := [], keyword_alerts := [], keyword_matches := [] }

/-- The active store without the pending job. -/
def active_db_no_job : Db :=
  { scraping_jobs := [], messages := [], media := [],
    user_channels := [active_user_channel], telegram_sessions := [],
    keyword_alerts := [], keyword_matches := [] }

/-- The inductive invariant of the job lifecycle: progress is within
[0, 100], any status other than "completed" caps it at 95, and before the
worker is done the status cannot be "completed". -/
def job_inv (s : JobSys) : Prop :=
  0 ≤ s.job.progress_percent ∧ s.job.progress_percent ≤ 100 ∧
    (s.job.status ≠ "completed" → s.job.progress_percent ≤ 95) ∧
    (s.phase ≠ Phase.done → s.job.status ≠ "completed")

/-- A concrete reachable state: created, started, then one in-loop progress
commit at 50 of an estimated 100 messages. -/
def sample_job_state : JobSys :=
  ⟨workerLoopUpdate (workerStart (fresh_job 1 1 1 none "full_scrape"))
      50 10 100, Phase.started⟩

/-- A due schedule row with a 6-hour interval and cursor 42. -/
def sched_uc : UserChannel :=
  { user_id := 1, channel_id := 2, last_scraped_message_id := 42,
    scrape_media := true, is_active := true, schedule_enabled := true,
    schedule_interval_hours := some 6, last_scheduled_at := none,
    next_scheduled_at := some 100 }

/-- An authenticated session for the same user. -/
def sched_session : TelegramSessionRow :=
  { id := 3, user_id := 1, api_id := 11, session_string := none,
    is_authenticated := true }

/-- A store where the due row can be queued. -/
def sched_db : Db :=
  { scraping_jobs := [], messages := [], media := [],
    user_channels := [sched_uc], telegram_sessions := [sched_session],
    keyword_alerts := [], keyword_matches := [] }

/-- The same store with an active job already on channel 2. -/
def busy_db : Db :=
  { sched_db with scraping_jobs := [fresh_job 9 1 2 none "incremental"] }

/-- A second authenticated session of the same user. -/
def sched_session2 : TelegramSessionRow :=
  { id := 4, user_id := 1, api_id := 12, session_string := none,
    is_authenticated := true }

/-- A store where user 1 holds two authenticated sessions, so the session
lookup raises `MultipleResultsFound`. -/
def dup_session_db : Db :=
  { sched_db with telegram_sessions := [sched_session, sched_session2] }

/-- A store where two users hold pending jobs on channel 2, so the
active-job lookup raises `MultipleResultsFound`. -/
def dup_jobs_db : Db :=
  { sched_db with scraping_jobs :=
      [fresh_job 9 1 2 none "incremental", fresh_job 10 7 2 none "manual"] }

/-- A tracked channel with cursor 0 for exercising the resume theorem. -/
def c3_uc : UserChannel :=
  { user_id := 1, channel_id := 1, last_scraped_message_id := 0,
    scrape_media := true, is_active := true, schedule_enabled := false,
    schedule_interval_hours := none, last_scheduled_at := none,
    next_scheduled_at := none }

/-- A store about to scrape its first message. -/
def c3_db : Db :=
  { scraping_jobs := [fresh_job 0 1 1 none "incremental"], messages := [],
    media := [], user_channels := [c3_uc], telegram_sessions := [],
    keyword_alerts := [], keyword_matches := [] }

/-! ## Helper lemmas -/

/-- A property preserved by every step of a fold holds of its result. -/
theorem foldl_preserves {α β : Type} (f : β → α → β) (P : β → Prop)
    (h : ∀ b a, P b → P (f b a)) :
    ∀ (l : List α) (b : β), P b → P (l.foldl f b) := by
  intro l
  induction l with
  | nil => intro b hb; exact hb
  | cons x xs ih => intro b hb; exact ih (f b x) (h b x hb)

/-- Elements of a list are bounded by its `foldl max` accumulation. -/
theorem le_foldl_max (l : List Nat) :
    ∀ (init : Nat) (a : Nat), a ∈ l → a ≤ l.foldl max init := by
  induction l with
  | nil => intro init a ha; cases ha
  | cons x xs ih =>
    intro init a ha
    cases ha with
    | head =>
      have h1 : x ≤ max init x := le_max_right _ _
      have h2 : max init x ≤ xs.foldl max (max init x) := by
        have := foldl_preserves (fun b n => max b n)
          (fun b => max init x ≤ b) ?_ xs (max init x) le_rfl
        · exact this
        · intro b n hb; exact le_trans hb (le_max_left _ _)
      exact le_trans h1 h2
    | tail _ hmem => exact ih (max init x) a hmem

/-- A `foldl max` accumulation is either the seed or an element. -/
theorem foldl_max_mem (l : List Nat) :
    ∀ init : Nat, l.foldl max init = init ∨ l.foldl max init ∈ l := by
  induction l with
  | nil => intro init; exact Or.inl rfl
  | cons x xs ih =>
    intro init
    rcases ih (max init x) with h | h
    · rcases max_choice init x with hm | hm
      · exact Or.inl (by rw [List.foldl_cons, h, hm])
      · refine Or.inr ?_
        rw [List.foldl_cons, h, hm]
        exact List.mem_cons_self x xs
    · exact Or.inr (List.mem_cons_of_mem x h)

/-! ## C7: session-string encryption round trip -/

/-- C7: for every configured key and every session string,
`decrypt_session_string (encrypt_session_string s) = s`; the derived Fernet
key is in both directions the base64url encoding of an exactly-32-byte key
(the configured bytes, or those padded/truncated to 32); and the session
update on sign-in stores exactly `encrypt_session_string` of the login
token, never the plaintext. -/
theorem session_string_roundtrip :
    ∀ cfg s : Bytes,
      decrypt_session_string cfg (encrypt_session_string cfg s) = some s
    ∧ (∃ k32 : Bytes, k32.length = 32 ∧
        get_encryption_key cfg = b64urlEncode k32)
    ∧ ∀ (sess : TelegramSessionRow) (plain : Bytes),
        (verify_code_store cfg plain sess).session_string =
          some (encrypt_session_string cfg plain) := by
  intro cfg s
  refine ⟨?_, ?_, ?_⟩
  · simp [decrypt_session_string, encrypt_session_string, fernet_encrypt,
      fernet_decrypt]
  · by_cases h : cfg.length = 32
    · exact ⟨cfg, h, by simp [get_encryption_key, h]⟩
    · refine ⟨(cfg ++ List.replicate (32 - cfg.length) 32).take 32, ?_,
        by simp [get_encryption_key, h]⟩
      have hlen : (cfg ++ List.replicate (32 - cfg.length) 32).length =
          cfg.length + (32 - cfg.length) := by
        simp [List.length_append, List.length_replicate]
      rw [List.length_take, hlen]
      omega
  · intro sess plain
    rfl

/-- One loop iteration changes the media table by exactly the rows the
source condition admits. -/
theorem scrape_step_media (db : Db) (ch : Nat) (sm : Bool) (p f : Nat)
    (m : TgMessage) :
    (scrape_step ch sm (db, p, f) m).1.media =
      db.media ++
        (match get_media_type m with
         | some t =>
           if !(message_exists db ch m.id) && sm && !(t == "webpage") then
             [new_media_row ch m.id t]
           else []
         | none => []) := by
  by_cases hex : message_exists db ch m.id
  · simp only [scrape_step, hex, if_true]
    cases hmt : get_media_type m with
    | none => simp
    | some t => simp [hex]
  · simp only [scrape_step, hex, if_false, Bool.not_false]
    cases hmt : get_media_type m with
    | none => simp
    | some t =>
      by_cases hc : (sm && !(t == "webpage")) = true
      · simp [hc, hex]
      · simp only [Bool.not_eq_true] at hc
        simp [hc, hex]

/-- One loop iteration changes the message table by exactly the new row
(or nothing for an already-stored message). -/
theorem scrape_step_messages (db : Db) (ch : Nat) (sm : Bool) (p f : Nat)
    (m : TgMessage) :
    (scrape_step ch sm (db, p, f) m).1.messages =
      db.messages ++
        (if message_exists db ch m.id then []
         else [new_message_row ch m]) := by
  by_cases hex : message_exists db ch m.id
  · simp [scrape_step, hex]
  · simp only [scrape_step, hex, if_false, Bool.not_false]
    cases hmt : get_media_type m with
    | none => simp
    | some t =>
      by_cases hc : (sm && !(t == "webpage")) = true
      · simp [hc]
      · simp only [Bool.not_eq_true] at hc
        simp [hc]

/-- The processed counter grows exactly on new messages. -/
theorem scrape_step_processed (db : Db) (ch : Nat) (sm : Bool) (p f : Nat)
    (m : TgMessage) :
    (scrape_step ch sm (db, p, f) m).2.1 =
      (if message_exists db ch m.id then p else p + 1) := by
  by_cases hex : message_exists db ch m.id
  · simp [scrape_step, hex]
  · simp only [scrape_step, hex, if_false, Bool.not_false]
    cases hmt : get_media_type m with
    | none => simp
    | some t =>
      by_cases hc : (sm && !(t == "webpage")) = true
      · simp [hc]
      · simp only [Bool.not_eq_true] at hc
        simp [hc]

/-- The loop touches only the message and media tables and the counters:
jobs, user channels, sessions and the keyword tables pass through. -/
theorem scrape_step_other_tables (db : Db) (ch : Nat) (sm : Bool)
    (p f : Nat) (m : TgMessage) :
    (scrape_step ch sm (db, p, f) m).1.scraping_jobs = db.scraping_jobs ∧
    (scrape_step ch sm (db, p, f) m).1.user_channels = db.user_channels ∧
    (scrape_step ch sm (db, p, f) m).1.telegram_sessions =
      db.telegram_sessions ∧
    (scrape_step ch sm (db, p, f) m).1.keyword_alerts = db.keyword_alerts ∧
    (scrape_step ch sm (db, p, f) m).1.keyword_matches =
      db.keyword_matches := by
  by_cases hex : message_exists db ch m.id
  · simp [scrape_step, hex]
  · simp only [scrape_step, hex, if_false, Bool.not_false]
    cases hmt : get_media_type m with
    | none => simp
    | some t =>
      by_cases hc : (sm && !(t == "webpage")) = true
      · simp [hc]
      · simp only [Bool.not_eq_true] at hc
        simp [hc]

/-- `update_job` rewrites only the job table. -/
theorem update_job_other_tables (db : Db) (jobId : Nat)
    (f : ScrapingJob → ScrapingJob) :
    (update_job db jobId f).messages = db.messages ∧
    (update_job db jobId f).media = db.media ∧
    (update_job db jobId f).user_channels = db.user_channels ∧
    (update_job db jobId f).telegram_sessions = db.telegram_sessions ∧
    (update_job db jobId f).keyword_alerts = db.keyword_alerts ∧
    (update_job db jobId f).keyword_matches = db.keyword_matches :=
  ⟨rfl, rfl, rfl, rfl, rfl, rfl⟩

/-- The cursor update rewrites only the user-channel table. -/
theorem update_cursor_other_tables (db : Db) (user ch processed : Nat) :
    (update_user_channel_cursor db user ch processed).messages =
      db.messages ∧
    (update_user_channel_cursor db user ch processed).media = db.media ∧
    (update_user_channel_cursor db user ch processed).scraping_jobs =
      db.scraping_jobs ∧
    (update_user_channel_cursor db user ch processed).telegram_sessions =
      db.telegram_sessions ∧
    (update_user_channel_cursor db user ch processed).keyword_alerts =
      db.keyword_alerts ∧
    (update_user_channel_cursor db user ch processed).keyword_matches =
      db.keyword_matches := by
  simp only [update_user_channel_cursor]
  split_ifs <;> exact ⟨rfl, rfl, rfl, rfl, rfl, rfl⟩

/-! ## C8: exactly which messages get a pending Media row -/

/-- C8: processing one fetched message adds a Media row exactly when the
message is new, classifies to a media type, media scraping is on and the
type is not "webpage"; the row it adds has `download_status` "pending"; and
the classification only ever yields photo, video, audio, document, webpage
or other. -/
theorem media_row_creation_exact :
    ∀ (db : Db) (ch : Nat) (sm : Bool) (p f : Nat) (m : TgMessage),
      ((scrape_step ch sm (db, p, f) m).1.media =
        db.media ++
          (match get_media_type m with
           | some t =>
             if !(message_exists db ch m.id) && sm && !(t == "webpage") then
               [new_media_row ch m.id t]
             else []
           | none => []))
    ∧ (∀ t : String, (new_media_row ch m.id t).download_status = "pending")
    ∧ (get_media_type m = none ∨ get_media_type m = some "photo" ∨
        get_media_type m = some "video" ∨ get_media_type m = some "audio" ∨
        get_media_type m = some "document" ∨
        get_media_type m = some "webpage" ∨ get_media_type m = some "other") := by
  intro db ch sm p f m
  refine ⟨scrape_step_media db ch sm p f m, fun t => rfl, ?_⟩
  · cases hm : m.media with
    | none => simp [get_media_type, hm]
    | some md =>
      cases md with
      | photo => simp [get_media_type, hm]
      | webpage => simp [get_media_type, hm]
      | other => simp [get_media_type, hm]
      | document d =>
        cases d with
        | none => simp [get_media_type, hm]
        | some mimeOpt =>
          simp only [get_media_type, hm]
          split_ifs <;> simp

/-! ## C5: keyword alerts in the scraping pipeline -/

/-- C5 (divergence witness): a whole scrape run — for any job, channel,
history and store, including one whose alert keyword occurs verbatim in a
persisted message's text — never inserts a `KeywordMatch` row and never
touches the alert bookkeeping: the scrape task contains no keyword
evaluation at all. -/
theorem scrape_produces_no_keyword_matches :
    ∀ (jobId user ch n : Nat) (sm : Bool) (history : List TgMessage)
      (db : Db),
      (scrape_channel_run jobId user ch n sm history db).db.keyword_matches
        = db.keyword_matches
    ∧ (scrape_channel_run jobId user ch n sm history db).db.keyword_alerts
        = db.keyword_alerts := by
  intro jobId user ch n sm history db
  have hfold :
      ∀ st : Db × Nat × Nat,
        st.1.keyword_matches = db.keyword_matches ∧
          st.1.keyword_alerts = db.keyword_alerts →
        (((iter_messages history n).foldl (scrape_step ch sm) st).1.keyword_matches
            = db.keyword_matches ∧
          ((iter_messages history n).foldl (scrape_step ch sm) st).1.keyword_alerts
            = db.keyword_alerts) := by
    intro st hst
    refine foldl_preserves (scrape_step ch sm)
      (fun st2 => st2.1.keyword_matches = db.keyword_matches ∧
        st2.1.keyword_alerts = db.keyword_alerts) ?_ _ st hst
    intro b a hb
    obtain ⟨db0, p0, f0⟩ := b
    have h := scrape_step_other_tables db0 ch sm p0 f0 a
    exact ⟨h.2.2.2.2.trans hb.1, h.2.2.2.1.trans hb.2⟩
  have hbase := hfold (update_job db jobId workerStart, 0, 0) ⟨rfl, rfl⟩
  simp only [scrape_channel_run]
  constructor
  · exact ((update_cursor_other_tables _ user ch _).2.2.2.2.2).trans hbase.1
  · exact ((update_cursor_other_tables _ user ch _).2.2.2.2.1).trans hbase.2

/-! ## C6: idempotence over already-scraped ranges -/

/-- A message already stored for the channel is skipped entirely. -/
theorem scrape_step_existing (ch : Nat) (sm : Bool) (st : Db × Nat × Nat)
    (m : TgMessage) (h : message_exists st.1 ch m.id = true) :
    scrape_step ch sm st m = st := by
  obtain ⟨db, p, f⟩ := st
  simp only [scrape_step]
  simp only at h
  simp [h]

/-- A whole loop over already-stored messages is the identity. -/
theorem scrape_fold_existing (ch : Nat) (sm : Bool) :
    ∀ (l : List TgMessage) (st : Db × Nat × Nat),
      (∀ m ∈ l, message_exists st.1 ch m.id = true) →
      l.foldl (scrape_step ch sm) st = st := by
  intro l
  induction l with
  | nil => intro st _; rfl
  | cons x xs ih =>
    intro st h
    rw [List.foldl_cons, scrape_step_existing ch sm st x
      (h x (List.mem_cons_self x xs))]
    exact ih st fun m hm => h m (List.mem_cons_of_mem x hm)

/-- `message_exists` reads only the message table. -/
theorem message_exists_congr {db1 db2 : Db}
    (h : db1.messages = db2.messages) (ch mid : Nat) :
    message_exists db1 ch mid = message_exists db2 ch mid := by
  simp [message_exists, h]

/-- C6: a message whose `(channel_id, telegram_message_id)` pair is already
stored is skipped with no change of state; hence a re-run over an
already-scraped range leaves the message and media tables unchanged. -/
theorem scrape_idempotent_on_existing :
    ∀ (jobId user ch n : Nat) (sm : Bool) (history : List TgMessage)
      (db : Db) (p f : Nat) (m : TgMessage),
      (message_exists db ch m.id = true →
        scrape_step ch sm (db, p, f) m = (db, p, f))
    ∧ ((∀ m2 ∈ iter_messages history n,
          message_exists db ch m2.id = true) →
        (scrape_channel_run jobId user ch n sm history db).db.messages =
          db.messages ∧
        (scrape_channel_run jobId user ch n sm history db).db.media =
          db.media) := by
  intro jobId user ch n sm history db p f m
  constructor
  · intro h
    exact scrape_step_existing ch sm (db, p, f) m h
  · intro h
    have hmsg0 : (update_job db jobId workerStart).messages = db.messages :=
      rfl
    have hfold :
        (iter_messages history n).foldl (scrape_step ch sm)
          (update_job db jobId workerStart, 0, 0) =
          (update_job db jobId workerStart, 0, 0) := by
      refine scrape_fold_existing ch sm _ _ ?_
      intro m2 hm2
      rw [message_exists_congr hmsg0 ch m2.id]
      exact h m2 hm2
    simp only [scrape_channel_run, hfold]
    constructor
    · exact ((update_cursor_other_tables _ user ch _).1).trans hmsg0
    · exact (update_cursor_other_tables _ user ch _).2.1


theorem scrape_idempotent_on_existing_witness :
    (scrape_step 1 true (sample_db, 0, 0) ⟨5, some "hi", none⟩ =
      (sample_db, 0, 0)) ∧
    ((scrape_channel_run 0 1 1 0 true [⟨5, some "hi", none⟩]
        sample_db).db.messages = sample_db.messages ∧
      (scrape_channel_run 0 1 1 0 true [⟨5, some "hi", none⟩]
        sample_db).db.media = sample_db.media) :=
  ⟨(scrape_idempotent_on_existing 0 1 1 0 true [⟨5, some "hi", none⟩]
      sample_db 0 0 ⟨5, some "hi", none⟩).1 (by decide),
   (scrape_idempotent_on_existing 0 1 1 0 true [⟨5, some "hi", none⟩]
      sample_db 0 0 ⟨5, some "hi", none⟩).2 (by decide)⟩

/-! ## C2: the media download status machine -/


/-- C2 counterexample: the single-media download endpoint accepts a row
whose status is "failed" and the worker's first commit moves it to
"downloading" — a transition to "downloading" from a status other than
"pending", refuting the claim as stated. -/
theorem media_failed_requeued_to_downloading :
    failed_media_row.download_status = "failed" ∧
    (start_media_download failed_media_row).map
      (fun m => m.download_status) = some "downloading" := by
  constructor
  · rfl
  · decide

/-- C2 (amended): every media row a scrape run creates starts as "pending";
the single-download flow moves a row to "downloading" only from "pending"
or "failed" (a failed download may be re-queued), never from "completed";
and the batch task selects only "pending" rows. -/
theorem media_download_status_machine :
    (∀ (db : Db) (jobId user ch n : Nat) (sm : Bool)
        (history : List TgMessage) (r : MediaRow),
        r ∈ (scrape_channel_run jobId user ch n sm history db).db.media →
        r ∈ db.media ∨ r.download_status = "pending")
    ∧ (∀ m m2 : MediaRow,
        (m.download_status = "pending" ∨ m.download_status = "downloading" ∨
          m.download_status = "completed" ∨ m.download_status = "failed") →
        start_media_download m = some m2 →
        m2.download_status = "downloading" ∧
          (m.download_status = "pending" ∨ m.download_status = "failed"))
    ∧ (∀ m : MediaRow, m.download_status = "completed" →
        start_media_download m = none)
    ∧ (∀ (db : Db) (ch lim : Nat) (r : MediaRow),
        r ∈ batch_select db ch lim → r.download_status = "pending") := by
  refine ⟨?_, ?_, ?_, ?_⟩
  · intro db jobId user ch n sm history r hr
    have hfold :
        ∀ r2 ∈ (((iter_messages history n).foldl (scrape_step ch sm)
            (update_job db jobId workerStart, 0, 0)).1).media,
          r2 ∈ db.media ∨ r2.download_status = "pending" := by
      refine foldl_preserves (scrape_step ch sm)
        (fun st => ∀ r2 ∈ st.1.media,
          r2 ∈ db.media ∨ r2.download_status = "pending") ?_ _ _ ?_
      · intro b a hb r2 hr2
        obtain ⟨db0, p0, f0⟩ := b
        rw [scrape_step_media db0 ch sm p0 f0 a] at hr2
        rcases List.mem_append.1 hr2 with h | h
        · exact hb r2 h
        · right
          cases hmt : get_media_type a with
          | none => rw [hmt] at h; cases h
          | some t =>
            rw [hmt] at h
            by_cases hc : (!(message_exists db0 ch a.id) && sm &&
                !(t == "webpage")) = true
            · simp only [hc, if_true, List.mem_singleton] at h
              rw [h]
              rfl
            · simp only [hc, if_false, List.not_mem_nil] at h
              simp at h
      · intro r2 hr2
        exact Or.inl hr2
    have hmedia :
        (scrape_channel_run jobId user ch n sm history db).db.media =
          (((iter_messages history n).foldl (scrape_step ch sm)
            (update_job db jobId workerStart, 0, 0)).1).media := by
      simp only [scrape_channel_run]
      exact (update_cursor_other_tables _ user ch _).2.1
    rw [hmedia] at hr
    exact hfold r hr
  · intro m m2 hdom hsome
    by_cases h1 : m.download_status = "completed"
    · simp [start_media_download, h1] at hsome
    · by_cases h2 : m.download_status = "downloading"
      · simp [start_media_download, h2] at hsome
      · have hm2 : m2 = download_start m := by
          simp [start_media_download, h1, h2] at hsome
          exact hsome.symm
        subst hm2
        refine ⟨rfl, ?_⟩
        rcases hdom with h | h | h | h
        · exact Or.inl h
        · exact absurd h h2
        · exact absurd h h1
        · exact Or.inr h
  · intro m h
    simp [start_media_download, h]
  · intro db ch lim r hr
    have hmem : r ∈ db.media.filter fun m =>
        m.channel_id == ch && m.download_status == "pending" :=
      List.mem_of_mem_take hr
    have hflt := (List.mem_filter.1 hmem).2
    simp only [Bool.and_eq_true, beq_iff_eq] at hflt
    exact hflt.2


theorem media_download_status_machine_witness :
    ((new_media_row 1 6 "photo" ∈ sample_db.media ∨
        (new_media_row 1 6 "photo").download_status = "pending") ∧
      ((download_start pending_media_row).download_status = "downloading" ∧
        (pending_media_row.download_status = "pending" ∨
          pending_media_row.download_status = "failed")) ∧
      start_media_download completed_media_row = none ∧
      pending_media_row.download_status = "pending") := by
  refine ⟨?_, ?_, ?_, ?_⟩
  · exact media_download_status_machine.1 sample_db 0 1 1 0 true
      [⟨6, some "pic", some TgMedia.photo⟩] (new_media_row 1 6 "photo")
      (by decide)
  · exact media_download_status_machine.2.1 pending_media_row
      (download_start pending_media_row) (Or.inl rfl) (by decide)
  · exact media_download_status_machine.2.2.1 completed_media_row rfl
  · exact media_download_status_machine.2.2.2 media_db 1 5 pending_media_row
      (by decide)

/-! ## C9: JobService.create_job -/


/-- C9 counterexample: a "pending" job exists for (user 1, channel 2), yet
`create_job` raises "Channel not found or not accessible" — not "A job is
already running for this channel" — because the inaccessible-channel check
runs first and the tracking row is inactive.  (No job row is created either
way.) -/
theorem create_job_error_message_on_inactive_channel :
    has_user_channel_job inactive_db 1 2 = true ∧
    create_job inactive_db 1 2 10 "incremental" =
      Except.error "Channel not found or not accessible" := by
  constructor
  · decide
  · rfl

/-- C9 (amended): when a pending/running job exists for the user-channel
pair and the user still actively tracks the channel, `create_job` raises
"A job is already running for this channel"; whenever such a job exists the
call errors (so no job row is created; with an inactive tracking row the
error is "Channel not found or not accessible" instead); and in the
success case exactly one job row is appended, with status "pending",
progress 0 and zero counters. -/
theorem create_job_spec :
    ∀ (db : Db) (user ch newId : Nat) (jt : String),
      (has_user_channel_job db user ch = true →
        user_tracks_active db user ch = true →
        create_job db user ch newId jt =
          Except.error "A job is already running for this channel")
    ∧ (has_user_channel_job db user ch = true →
        ∃ e : String, create_job db user ch newId jt = Except.error e)
    ∧ (has_user_channel_job db user ch = false →
        user_tracks_active db user ch = true →
        create_job db user ch newId jt = Except.ok
          ({ db with scraping_jobs := db.scraping_jobs ++
              [fresh_job newId user ch none jt] },
            fresh_job newId user ch none jt))
    ∧ ((fresh_job newId user ch none jt).status = "pending" ∧
        (fresh_job newId user ch none jt).progress_percent = 0 ∧
        (fresh_job newId user ch none jt).messages_processed = 0 ∧
        (fresh_job newId user ch none jt).media_downloaded = 0) := by
  intro db user ch newId jt
  refine ⟨?_, ?_, ?_, rfl, rfl, rfl, rfl⟩
  · intro hjob htrack
    simp [create_job, htrack, hjob]
  · intro hjob
    by_cases htrack : user_tracks_active db user ch = true
    · exact ⟨"A job is already running for this channel",
        by simp [create_job, htrack, hjob]⟩
    · simp only [Bool.not_eq_true] at htrack
      exact ⟨"Channel not found or not accessible",
        by simp [create_job, htrack]⟩
  · intro hjob htrack
    simp [create_job, htrack, hjob]

theorem create_job_spec_witness :
    (create_job active_db 1 2 10 "incremental" =
      Except.error "A job is already running for this channel") ∧
    (∃ e : String, create_job inactive_db 1 2 10 "incremental" =
      Except.error e) ∧
    (create_job active_db_no_job 1 2 10 "incremental" = Except.ok
      ({ active_db_no_job with scraping_jobs :=
          active_db_no_job.scraping_jobs ++
            [fresh_job 10 1 2 none "incremental"] },
        fresh_job 10 1 2 none "incremental")) :=
  ⟨(create_job_spec active_db 1 2 10 "incremental").1 (by decide) (by decide),
   (create_job_spec inactive_db 1 2 10 "incremental").2.1 (by decide),
   (create_job_spec active_db_no_job 1 2 10 "incremental").2.2.1 (by decide)
     (by decide)⟩

/-! ## C1: terminal job statuses are not terminal in the code -/

/-- C1 (code bug): a job cancelled while "pending" is resurrected by the
worker — `scrape_channel`'s initial update sets "running" with no guard —
and subsequently marked "completed"; likewise the exception handler
overwrites "cancelled" with "failed".  Both transitions out of the
terminal status "cancelled" are reachable in the modelled lifecycle. -/
theorem scraping_job_cancelled_overwritten :
    cancel_job_row (fresh_job 1 1 1 none "incremental") =
      some { fresh_job 1 1 1 none "incremental" with status := "cancelled" }
    ∧ (workerStart
        { fresh_job 1 1 1 none "incremental" with
            status := "cancelled" }).status = "running"
    ∧ (workerComplete (workerStart
        { fresh_job 1 1 1 none "incremental" with status := "cancelled" })
          3 1).status = "completed"
    ∧ (workerFail
        { fresh_job 1 1 1 none "incremental" with status := "cancelled" }
          "network error" 0).status = "failed"
    ∧ JobReachable ⟨workerStart
        { fresh_job 1 1 1 none "incremental" with status := "cancelled" },
        Phase.started⟩ := by
  refine ⟨by decide, rfl, by decide, rfl, ?_⟩
  exact JobReachable.start (JobReachable.cancel
    (JobReachable.init 1 1 1 none "incremental") (by decide))

/-! ## C10: progress stays within bounds -/


theorem q0_le_100 : (0 : ℚ) ≤ 100 := by norm_num

theorem q0_le_95 : (0 : ℚ) ≤ 95 := by norm_num

theorem q95_le_100 : (95 : ℚ) ≤ 100 := by norm_num

theorem phase_ns_ne_done : Phase.notStarted ≠ Phase.done := by decide

theorem phase_st_ne_done : Phase.started ≠ Phase.done := by decide

theorem pending_ne_completed : ("pending" : String) ≠ "completed" := by decide

theorem running_ne_completed : ("running" : String) ≠ "completed" := by decide

theorem cancelled_ne_completed : ("cancelled" : String) ≠ "completed" := by
  decide

theorem job_inv_holds : ∀ s : JobSys, JobReachable s → job_inv s := by
  intro s h
  induction h with
  | init id user ch sess jt =>
    exact ⟨le_refl 0, q0_le_100, fun _ => q0_le_95,
      fun _ => pending_ne_completed⟩
  | start h ih =>
    obtain ⟨h0, h1, h2, h3⟩ := ih
    have hp := h2 (h3 phase_ns_ne_done)
    exact ⟨h0, h1, fun _ => hp, fun _ => running_ne_completed⟩
  | loopUpdate processed found total h ih =>
    obtain ⟨h0, h1, h2, h3⟩ := ih
    have hst := h3 phase_st_ne_done
    have hp := h2 hst
    by_cases ht : 0 < total
    · have hq : (0 : ℚ) ≤ (processed : ℚ) / (total : ℚ) * 100 := by
        positivity
      refine ⟨?_, ?_, ?_, ?_⟩
      · simp only [workerLoopUpdate, ht, if_true]
        exact le_min q0_le_95 hq
      · simp only [workerLoopUpdate, ht, if_true]
        exact le_trans (min_le_left _ _) q95_le_100
      · intro _
        simp only [workerLoopUpdate, ht, if_true]
        exact min_le_left _ _
      · intro _
        simp only [workerLoopUpdate, ht, if_true]
        exact hst
    · refine ⟨?_, ?_, ?_, ?_⟩
      · simp only [workerLoopUpdate, ht, if_false]
        exact h0
      · simp only [workerLoopUpdate, ht, if_false]
        exact h1
      · intro _
        simp only [workerLoopUpdate, ht, if_false]
        exact hp
      · intro _
        simp only [workerLoopUpdate, ht, if_false]
        exact hst
  | complete processed found h ih =>
    rename_i j
    obtain ⟨h0, h1, h2, h3⟩ := ih
    by_cases hcs : (j.status == "cancelled") = true
    · refine ⟨?_, ?_, ?_, fun hd => (hd rfl).elim⟩
      · simp only [workerComplete, hcs, if_true]
        exact h0
      · simp only [workerComplete, hcs, if_true]
        exact h1
      · simp only [workerComplete, hcs, if_true]
        exact h2
    · refine ⟨?_, ?_, ?_, fun hd => (hd rfl).elim⟩
      · norm_num [workerComplete, hcs]
      · norm_num [workerComplete, hcs]
      · intro hne
        simp [workerComplete, hcs] at hne
  | fail err processed h hph ih =>
    obtain ⟨h0, h1, h2, h3⟩ := ih
    have hp := h2 (h3 hph)
    exact ⟨h0, le_trans hp q95_le_100, fun _ => hp,
      fun hd => (hd rfl).elim⟩
  | cancel h hc ih =>
    rename_i j j2 ph
    obtain ⟨h0, h1, h2, h3⟩ := ih
    have hg : (j.status == "pending" || j.status == "running") = true := by
      by_contra hng
      simp only [Bool.not_eq_true] at hng
      simp [cancel_job_row, hng] at hc
    have hj2 : j2 = { j with status := "cancelled" } := by
      simp only [cancel_job_row, hg, if_true, Option.some.injEq] at hc
      exact hc.symm
    have hjs : j.status ≠ "completed" := by
      simp only [Bool.or_eq_true, beq_iff_eq] at hg
      rcases hg with hg | hg <;> rw [hg] <;> decide
    have hp95 := h2 hjs
    subst hj2
    exact ⟨h0, h1, fun _ => hp95, fun _ => cancelled_ne_completed⟩

/-- C10: in every reachable job state, progress lies in [0, 100]; a job
whose status is "failed" or "cancelled" has progress at most 95 (the
in-loop updates are capped at 95); and progress 100 occurs only with
status "completed". -/
theorem progress_percent_bounds :
    ∀ s : JobSys, JobReachable s →
      0 ≤ s.job.progress_percent ∧ s.job.progress_percent ≤ 100 ∧
      ((s.job.status = "failed" ∨ s.job.status = "cancelled") →
        s.job.progress_percent ≤ 95) ∧
      (s.job.progress_percent = 100 → s.job.status = "completed") := by
  intro s h
  obtain ⟨h0, h1, h2, _⟩ := job_inv_holds s h
  refine ⟨h0, h1, ?_, ?_⟩
  · rintro (hs | hs) <;>
      exact h2 (by rw [hs]; decide)
  · intro hp
    by_contra hne
    have h95 := h2 hne
    rw [hp] at h95
    norm_num at h95


theorem progress_percent_bounds_witness :
    0 ≤ sample_job_state.job.progress_percent ∧
    sample_job_state.job.progress_percent ≤ 100 ∧
    ((sample_job_state.job.status = "failed" ∨
        sample_job_state.job.status = "cancelled") →
      sample_job_state.job.progress_percent ≤ 95) ∧
    (sample_job_state.job.progress_percent = 100 →
      sample_job_state.job.status = "completed") :=
  progress_percent_bounds sample_job_state
    (JobReachable.loopUpdate 50 10 100
      (JobReachable.start (JobReachable.init 1 1 1 none "full_scrape")))

/-! ## C4: the periodic scheduler -/

/-- C4 counterexample: two reachable stores where the claim as stated
fails.  With two authenticated sessions for the user (nothing ever
de-authenticates the others), the session lookup raises
`MultipleResultsFound` and the due row is skipped with no job created,
although the user does have an authenticated session and the channel no
active job; with two users' pending jobs on one channel (the duplicate
check in `create_job` is per-user, the scheduler's is channel-wide), the
active-job lookup raises and the row is skipped without `next_scheduled_at`
being advanced, although it is skipped because of active jobs. -/
theorem scheduler_multiplicity_skips :
    ((dup_session_db.telegram_sessions.any fun s =>
        s.user_id == 1 && s.is_authenticated) = true
    ∧ (dup_session_db.scraping_jobs.any fun j =>
        j.channel_id == 2 &&
          (j.status == "pending" || j.status == "running")) = false
    ∧ process_schedule 100 (dup_session_db, [], 5) sched_uc =
        (dup_session_db, [], 5))
    ∧ ((dup_jobs_db.scraping_jobs.any fun j =>
        j.channel_id == 2 &&
          (j.status == "pending" || j.status == "running")) = true
    ∧ process_schedule 100 (dup_jobs_db, [], 5) sched_uc =
        (dup_jobs_db, [], 5)) :=
  ⟨⟨by decide, by decide, rfl⟩, by decide, rfl⟩

/-- C4 (amended): a scheduler run considers exactly the enabled, active
rows whose `next_scheduled_at` has passed; a due row whose channel has
exactly one active job is skipped but rescheduled; one whose user has no
authenticated session is skipped untouched; one where either lookup finds
more than one row (`MultipleResultsFound`, caught by the per-row handler)
is skipped untouched — no job and no reschedule; otherwise exactly one
"pending" job is created and one scrape task enqueued from the row's
cursor, and the row is rescheduled; rescheduling sets `next_scheduled_at`
to now plus the interval (24 hours when unset). -/
theorem scheduler_due_processing :
    ∀ (db : Db) (now firstId : Nat),
      (∀ uc : UserChannel, uc ∈ get_due_schedules db now ↔
        (uc ∈ db.user_channels ∧ uc.schedule_enabled = true ∧
          uc.is_active = true ∧
          ∃ t, uc.next_scheduled_at = some t ∧ t ≤ now))
    ∧ (check_scheduled_jobs db now firstId =
        (get_due_schedules db now).foldl (process_schedule now)
          (db, [], firstId))
    ∧ (∀ (db0 : Db) (q : List QueuedScrape) (i : Nat) (uc : UserChannel),
        (has_active_job db0 uc.channel_id = Except.ok true →
          process_schedule now (db0, q, i) uc =
            (put_user_channel db0 (mark_scheduled_run uc now), q, i))
      ∧ (has_active_job db0 uc.channel_id = Except.ok false →
          get_user_session db0 uc.user_id = Except.ok none →
          process_schedule now (db0, q, i) uc = (db0, q, i))
      ∧ (∀ s : TelegramSessionRow,
          has_active_job db0 uc.channel_id = Except.ok false →
          get_user_session db0 uc.user_id = Except.ok (some s) →
          process_schedule now (db0, q, i) uc =
            (put_user_channel
              { db0 with scraping_jobs := db0.scraping_jobs ++
                  [fresh_job i uc.user_id uc.channel_id (some s.id)
                    "scheduled"] }
              (mark_scheduled_run uc now),
              q ++ [{ job_id := i, user_id := uc.user_id,
                      channel_id := uc.channel_id, session_id := s.id,
                      from_message_id := uc.last_scraped_message_id }],
              i + 1))
      ∧ (∀ e : String, has_active_job db0 uc.channel_id = Except.error e →
          process_schedule now (db0, q, i) uc = (db0, q, i))
      ∧ (∀ e : String, has_active_job db0 uc.channel_id = Except.ok false →
          get_user_session db0 uc.user_id = Except.error e →
          process_schedule now (db0, q, i) uc = (db0, q, i)))
    ∧ (∀ uc : UserChannel,
        (fresh_job firstId uc.user_id uc.channel_id none
          "scheduled").status = "pending"
      ∧ (uc.schedule_interval_hours = none →
          (mark_scheduled_run uc now).next_scheduled_at = some (now + 24))
      ∧ (∀ k : Nat, uc.schedule_interval_hours = some k → 1 ≤ k →
          (mark_scheduled_run uc now).next_scheduled_at =
            some (now + k))) := by
  intro db now firstId
  refine ⟨?_, rfl, ?_, ?_⟩
  · intro uc
    rw [get_due_schedules, List.mem_filter]
    constructor
    · rintro ⟨hmem, hcond⟩
      simp only [Bool.and_eq_true] at hcond
      obtain ⟨⟨hen, hact⟩, hnext⟩ := hcond
      refine ⟨hmem, hen, hact, ?_⟩
      cases hns : uc.next_scheduled_at with
      | none =>
        rw [hns] at hnext
        exact Bool.noConfusion hnext
      | some t =>
        rw [hns] at hnext
        exact ⟨t, rfl, of_decide_eq_true hnext⟩
    · rintro ⟨hmem, hen, hact, t, hns, hle⟩
      refine ⟨hmem, ?_⟩
      simp only [Bool.and_eq_true]
      refine ⟨⟨hen, hact⟩, ?_⟩
      rw [hns]
      exact decide_eq_true hle
  · intro db0 q i uc
    refine ⟨?_, ?_, ?_, ?_, ?_⟩
    · intro hact
      simp [process_schedule, hact]
    · intro hact hsess
      simp [process_schedule, hact, hsess]
    · intro s hact hsess
      simp [process_schedule, hact, hsess]
    · intro e hact
      simp [process_schedule, hact]
    · intro e hact hsess
      simp [process_schedule, hact, hsess]
  · intro uc
    refine ⟨rfl, ?_, ?_⟩
    · intro h
      simp [mark_scheduled_run, calculate_next_run, h]
    · intro k hk h1
      simp only [mark_scheduled_run, calculate_next_run, hk]
      rw [if_neg (by omega)]

theorem scheduler_due_processing_witness :
    (process_schedule 100 (busy_db, [], 5) sched_uc =
      (put_user_channel busy_db (mark_scheduled_run sched_uc 100), [], 5))
    ∧ (process_schedule 100 (sched_db, [], 5) sched_uc =
        (put_user_channel
          { sched_db with scraping_jobs := sched_db.scraping_jobs ++
              [fresh_job 5 sched_uc.user_id sched_uc.channel_id
                (some sched_session.id) "scheduled"] }
          (mark_scheduled_run sched_uc 100),
          [] ++ [{ job_id := 5, user_id := sched_uc.user_id,
                   channel_id := sched_uc.channel_id,
                   session_id := sched_session.id,
                   from_message_id := sched_uc.last_scraped_message_id }],
          6))
    ∧ (process_schedule 100 (dup_jobs_db, [], 5) sched_uc =
        (dup_jobs_db, [], 5))
    ∧ (process_schedule 100 (dup_session_db, [], 5) sched_uc =
        (dup_session_db, [], 5))
    ∧ (mark_scheduled_run sched_uc 100).next_scheduled_at = some 106 :=
  ⟨((scheduler_due_processing busy_db 100 5).2.2.1 busy_db [] 5 sched_uc).1
      rfl,
   ((scheduler_due_processing sched_db 100 5).2.2.1 sched_db [] 5
      sched_uc).2.2.1 sched_session rfl rfl,
   ((scheduler_due_processing dup_jobs_db 100 5).2.2.1 dup_jobs_db [] 5
      sched_uc).2.2.2.1 "MultipleResultsFound" rfl,
   ((scheduler_due_processing dup_session_db 100 5).2.2.1 dup_session_db
      [] 5 sched_uc).2.2.2.2 "MultipleResultsFound" rfl rfl,
   ((scheduler_due_processing sched_db 100 5).2.2.2 sched_uc).2.2 6 rfl
      (by decide)⟩

/-! ## C3: incremental resume -/

/-- The message table only grows through the loop. -/
theorem scrape_fold_messages_mono (ch : Nat) (sm : Bool) :
    ∀ (l : List TgMessage) (st : Db × Nat × Nat) (r : MessageRow),
      r ∈ st.1.messages →
      r ∈ (l.foldl (scrape_step ch sm) st).1.messages := by
  intro l
  induction l with
  | nil => intro st r hr; exact hr
  | cons x xs ih =>
    intro st r hr
    rw [List.foldl_cons]
    refine ih _ r ?_
    obtain ⟨db0, p0, f0⟩ := st
    rw [scrape_step_messages db0 ch sm p0 f0 x]
    exact List.mem_append_left _ hr

/-- Every row the loop adds has the scraped channel and an id drawn from
the fetched list, so it inherits any property of those ids. -/
theorem scrape_fold_new_messages (ch : Nat) (sm : Bool) (P : Nat → Prop) :
    ∀ l : List TgMessage, (∀ m ∈ l, P m.id) →
      ∀ (st : Db × Nat × Nat) (r : MessageRow),
        r ∈ (l.foldl (scrape_step ch sm) st).1.messages →
        r ∈ st.1.messages ∨
          (P r.telegram_message_id ∧ r.channel_id = ch) := by
  intro l
  induction l with
  | nil => intro _ st r hr; exact Or.inl hr
  | cons x xs ih =>
    intro hl st r hr
    rw [List.foldl_cons] at hr
    rcases ih (fun m hm => hl m (List.mem_cons_of_mem x hm)) _ r hr with
      h | h
    · obtain ⟨db0, p0, f0⟩ := st
      rw [scrape_step_messages db0 ch sm p0 f0 x] at h
      rcases List.mem_append.1 h with h2 | h2
      · exact Or.inl h2
      · by_cases hex : message_exists db0 ch x.id = true
        · simp [hex] at h2
        · simp only [Bool.not_eq_true] at hex
          simp only [hex, Bool.false_eq_true, if_false,
            List.mem_singleton] at h2
          subst h2
          exact Or.inr ⟨hl x (List.mem_cons_self x xs), rfl⟩
    · exact Or.inr h

/-- The processed counter never decreases through the loop. -/
theorem scrape_fold_processed_mono (ch : Nat) (sm : Bool) :
    ∀ (l : List TgMessage) (st : Db × Nat × Nat),
      st.2.1 ≤ (l.foldl (scrape_step ch sm) st).2.1 := by
  intro l
  induction l with
  | nil => intro st; exact le_refl _
  | cons x xs ih =>
    intro st
    refine le_trans ?_ (ih (scrape_step ch sm st x))
    obtain ⟨db0, p0, f0⟩ := st
    have hpair : ((db0, p0, f0) : Db × Nat × Nat).2.1 = p0 := rfl
    rw [hpair, scrape_step_processed db0 ch sm p0 f0 x]
    split <;> omega

/-- If the loop processed anything, some stored row of the scraped channel
carries an id from the fetched list. -/
theorem scrape_fold_processed_witness (ch : Nat) (sm : Bool) :
    ∀ (l : List TgMessage) (st : Db × Nat × Nat),
      st.2.1 < (l.foldl (scrape_step ch sm) st).2.1 →
      ∃ r : MessageRow,
        r ∈ (l.foldl (scrape_step ch sm) st).1.messages ∧
        r.channel_id = ch ∧ ∃ m ∈ l, r.telegram_message_id = m.id := by
  intro l
  induction l with
  | nil => intro st h; exact absurd h (lt_irrefl _)
  | cons x xs ih =>
    intro st h
    rw [List.foldl_cons] at h ⊢
    obtain ⟨db0, p0, f0⟩ := st
    by_cases hex : message_exists db0 ch x.id = true
    · have hstep : scrape_step ch sm (db0, p0, f0) x = (db0, p0, f0) :=
        scrape_step_existing ch sm (db0, p0, f0) x hex
      rw [hstep] at h ⊢
      obtain ⟨r, hr, hch, m, hm, hid⟩ := ih (db0, p0, f0) h
      exact ⟨r, hr, hch, m, List.mem_cons_of_mem x hm, hid⟩
    · have hrow : new_message_row ch x ∈
          (scrape_step ch sm (db0, p0, f0) x).1.messages := by
        rw [scrape_step_messages db0 ch sm p0 f0 x]
        simp only [Bool.not_eq_true] at hex
        simp [hex]
      exact ⟨new_message_row ch x,
        scrape_fold_messages_mono ch sm xs _ _ hrow, rfl, x,
        List.mem_cons_self x xs, rfl⟩

/-- `find?` over the cursor rewrite commutes with the rewrite of the first
matching row. -/
theorem find_put_cursor (user ch mx : Nat) :
    ∀ l : List UserChannel,
      (l.map fun uc =>
        if uc.user_id == user && uc.channel_id == ch then
          { uc with last_scraped_message_id := mx }
        else uc).find?
          (fun uc => uc.user_id == user && uc.channel_id == ch) =
      (l.find? fun uc =>
        uc.user_id == user && uc.channel_id == ch).map
          (fun uc => { uc with last_scraped_message_id := mx }) := by
  intro l
  induction l with
  | nil => rfl
  | cons x xs ih =>
    by_cases h : (x.user_id == user && x.channel_id == ch) = true
    · simp only [List.map_cons, if_pos h]
      rw [List.find?_cons_of_pos, List.find?_cons_of_pos]
      · rfl
      · exact h
      · exact h
    · simp only [List.map_cons, if_neg h]
      rw [List.find?_cons_of_neg, List.find?_cons_of_neg, ih]
      · exact h
      · exact h

/-- The channel maximum depends only on the message table. -/
theorem max_channel_congr {db1 db2 : Db} (h : db1.messages = db2.messages)
    (ch : Nat) :
    max_channel_message_id db1 ch = max_channel_message_id db2 ch := by
  simp [max_channel_message_id, h]

/-- The next incremental start depends only on the user-channel table. -/
theorem incremental_from_congr {db1 db2 : Db}
    (h : db1.user_channels = db2.user_channels) (user ch : Nat) :
    incremental_from_message_id db1 user ch =
      incremental_from_message_id db2 user ch := by
  simp [incremental_from_message_id, h]

/-- When the tracking row exists, something was processed and the channel
maximum is positive, the cursor update stores exactly that maximum, as read
back by the next incremental job's start computation. -/
theorem update_cursor_sets_max (db : Db) (user ch processed : Nat)
    (hrow : (db.user_channels.any fun uc =>
      uc.user_id == user && uc.channel_id == ch) = true)
    (hproc : 0 < processed)
    (hmx : 0 < max_channel_message_id db ch) :
    incremental_from_message_id
        (update_user_channel_cursor db user ch processed) user ch =
      max_channel_message_id db ch := by
  obtain ⟨uc0, hmem, hp⟩ := List.any_eq_true.mp hrow
  have hsome : (db.user_channels.find? fun uc =>
      uc.user_id == user && uc.channel_id == ch).isSome :=
    List.find?_isSome.mpr ⟨uc0, hmem, hp⟩
  obtain ⟨uc1, huc1⟩ := Option.isSome_iff_exists.mp hsome
  unfold update_user_channel_cursor
  rw [hrow]
  simp only [Bool.true_and, decide_eq_true_eq, hproc, if_true, hmx]
  unfold incremental_from_message_id
  simp only []
  rw [find_put_cursor user ch (max_channel_message_id db ch)
    db.user_channels, huc1]
  rfl

/-- After the loop, given an existing tracking row, a processed message and
a positive channel maximum witness, the cursor update stores the channel
maximum, which is attained by a stored row and bounds all stored rows of
the channel. -/
theorem cursor_final_state (user ch : Nat) (db : Db) (st : Db × Nat × Nat)
    (hucs : st.1.user_channels = db.user_channels)
    (hany : (db.user_channels.any fun uc =>
      uc.user_id == user && uc.channel_id == ch) = true)
    (hp2 : 0 < st.2.1)
    (r : MessageRow) (hrmem : r ∈ st.1.messages) (hrch : r.channel_id = ch)
    (hrpos : 0 < r.telegram_message_id) :
    incremental_from_message_id
        (update_user_channel_cursor st.1 user ch st.2.1) user ch =
      max_channel_message_id st.1 ch
    ∧ max_channel_message_id st.1 ch ∈
        ((st.1.messages.filter fun r2 => r2.channel_id == ch).map
          fun r2 => r2.telegram_message_id)
    ∧ ∀ r2 ∈ st.1.messages, r2.channel_id = ch →
        r2.telegram_message_id ≤ max_channel_message_id st.1 ch := by
  have hrin : r.telegram_message_id ∈
      ((st.1.messages.filter fun r2 => r2.channel_id == ch).map
        fun r2 => r2.telegram_message_id) :=
    List.mem_map_of_mem _ (List.mem_filter.2 ⟨hrmem, by simp [hrch]⟩)
  have hmx_pos : 0 < max_channel_message_id st.1 ch :=
    lt_of_lt_of_le hrpos (le_foldl_max _ 0 _ hrin)
  refine ⟨?_, ?_, ?_⟩
  · refine update_cursor_sets_max st.1 user ch st.2.1 ?_ hp2 hmx_pos
    rw [hucs]
    exact hany
  · rcases foldl_max_mem
        ((st.1.messages.filter fun r2 => r2.channel_id == ch).map
          fun r2 => r2.telegram_message_id) 0 with h0 | hmem
    · have hz : max_channel_message_id st.1 ch = 0 := h0
      omega
    · exact hmem
  · intro r2 hr2 hch2
    exact le_foldl_max _ 0 _
      (List.mem_map_of_mem _ (List.mem_filter.2 ⟨hr2, by simp [hch2]⟩))

/-- C3: the scrape fetches (and therefore persists) only messages with id
strictly above `from_message_id`; and after a run that processed at least
one message for a tracked channel, the per-user cursor equals the channel's
maximum stored `telegram_message_id` — the value read back as the next
incremental job's `from_message_id`. -/
theorem incremental_resume_cursor :
    ∀ (jobId user ch n : Nat) (sm : Bool) (history : List TgMessage)
      (db : Db),
      (iter_messages history n = history.filter fun m => n < m.id)
    ∧ (∀ r ∈ (scrape_channel_run jobId user ch n sm history db).db.messages,
        r ∉ db.messages → n < r.telegram_message_id ∧ r.channel_id = ch)
    ∧ (0 < (scrape_channel_run jobId user ch n sm
          history db).messages_processed →
        (db.user_channels.any fun uc =>
          uc.user_id == user && uc.channel_id == ch) = true →
        incremental_from_message_id
            (scrape_channel_run jobId user ch n sm history db).db user ch =
          max_channel_message_id
            (scrape_channel_run jobId user ch n sm history db).db ch
        ∧ max_channel_message_id
            (scrape_channel_run jobId user ch n sm history db).db ch ∈
          (((scrape_channel_run jobId user ch n sm
              history db).db.messages.filter
            fun r => r.channel_id == ch).map fun r => r.telegram_message_id)
        ∧ ∀ r ∈ (scrape_channel_run jobId user ch n sm
              history db).db.messages,
            r.channel_id = ch →
            r.telegram_message_id ≤ max_channel_message_id
              (scrape_channel_run jobId user ch n sm history db).db ch) := by
  intro jobId user ch n sm history db
  have hl : ∀ m ∈ iter_messages history n, n < m.id := by
    intro m hm
    have hm2 : m ∈ history.filter (fun m2 => decide (n < m2.id)) := hm
    exact of_decide_eq_true (List.mem_filter.1 hm2).2
  have hmsgs : (scrape_channel_run jobId user ch n sm history db).db.messages
      = ((iter_messages history n).foldl (scrape_step ch sm)
          (update_job db jobId workerStart, 0, 0)).1.messages := by
    simp only [scrape_channel_run]
    exact (update_cursor_other_tables _ user ch _).1
  refine ⟨rfl, ?_, ?_⟩
  · intro r hr hnot
    rw [hmsgs] at hr
    rcases scrape_fold_new_messages ch sm (fun i => n < i)
        (iter_messages history n) hl (update_job db jobId workerStart, 0, 0)
        r hr with h | h
    · exact absurd h hnot
    · exact h
  · intro hp hany
    have hp2 : 0 < ((iter_messages history n).foldl (scrape_step ch sm)
        (update_job db jobId workerStart, 0, 0)).2.1 := hp
    obtain ⟨r, hrmem, hrch, m, hm, hrid⟩ :=
      scrape_fold_processed_witness ch sm (iter_messages history n)
        (update_job db jobId workerStart, 0, 0) hp2
    have hrpos : 0 < r.telegram_message_id := by
      have hlt := hl m hm
      omega
    have hfold_ucs : ((iter_messages history n).foldl (scrape_step ch sm)
        (update_job db jobId workerStart, 0, 0)).1.user_channels =
        db.user_channels := by
      refine foldl_preserves (scrape_step ch sm)
        (fun st2 => st2.1.user_channels = db.user_channels) ?_ _ _ rfl
      intro b a hb
      obtain ⟨db1, p1, f1⟩ := b
      exact ((scrape_step_other_tables db1 ch sm p1 f1 a).2.1).trans hb
    have hcore := cursor_final_state user ch db
      ((iter_messages history n).foldl (scrape_step ch sm)
        (update_job db jobId workerStart, 0, 0))
      hfold_ucs hany hp2 r hrmem hrch hrpos
    have hmax : max_channel_message_id
        (scrape_channel_run jobId user ch n sm history db).db ch =
        max_channel_message_id
          ((iter_messages history n).foldl (scrape_step ch sm)
            (update_job db jobId workerStart, 0, 0)).1 ch :=
      max_channel_congr hmsgs ch
    have hinc : incremental_from_message_id
        (scrape_channel_run jobId user ch n sm history db).db user ch =
        incremental_from_message_id
          (update_user_channel_cursor
            ((iter_messages history n).foldl (scrape_step ch sm)
              (update_job db jobId workerStart, 0, 0)).1 user ch
            ((iter_messages history n).foldl (scrape_step ch sm)
              (update_job db jobId workerStart, 0, 0)).2.1) user ch :=
      incremental_from_congr rfl user ch
    refine ⟨?_, ?_, ?_⟩
    · rw [hinc, hmax]
      exact hcore.1
    · rw [hmax, hmsgs]
      exact hcore.2.1
    · intro r2 hr2 hch2
      rw [hmax]
      rw [hmsgs] at hr2
      exact hcore.2.2 r2 hr2 hch2


theorem incremental_resume_cursor_witness :
    ((0 : Nat) < (new_message_row 1 ⟨5, some "hi", none⟩).telegram_message_id
      ∧ (new_message_row 1 ⟨5, some "hi", none⟩).channel_id = 1)
    ∧ (incremental_from_message_id
          (scrape_channel_run 0 1 1 0 true [⟨5, some "hi", none⟩]
            c3_db).db 1 1 =
        max_channel_message_id
          (scrape_channel_run 0 1 1 0 true [⟨5, some "hi", none⟩]
            c3_db).db 1
      ∧ max_channel_message_id
          (scrape_channel_run 0 1 1 0 true [⟨5, some "hi", none⟩]
            c3_db).db 1 ∈
          (((scrape_channel_run 0 1 1 0 true [⟨5, some "hi", none⟩]
              c3_db).db.messages.filter
            fun r => r.channel_id == 1).map fun r => r.telegram_message_id)
      ∧ ∀ r ∈ (scrape_channel_run 0 1 1 0 true [⟨5, some "hi", none⟩]
            c3_db).db.messages,
          r.channel_id = 1 →
          r.telegram_message_id ≤ max_channel_message_id
            (scrape_channel_run 0 1 1 0 true [⟨5, some "hi", none⟩]
              c3_db).db 1) :=
  ⟨(incremental_resume_cursor 0 1 1 0 true [⟨5, some "hi", none⟩]
      c3_db).2.1 (new_message_row 1 ⟨5, some "hi", none⟩) (by decide)
      (by decide),
   (incremental_resume_cursor 0 1 1 0 true [⟨5, some "hi", none⟩]
      c3_db).2.2 (by decide) (by decide)⟩

end TelegramScraper
